import Mathlib

/-!
Verification of the GitHub version-resolution core of nvchecker
(`src/nvchecker_source/github.py`) against its natural-language
specification.

The Python module is shallowly embedded: the pure strategy-selection
phase of `get_version_real` (everything before the network call) becomes
`get_version_plan`, the per-strategy response interpreters become
`parse_max_tag`, `parse_latest_release` and `parse_commits`, and the
rate-limit classifier `check_ratelimit` becomes a pure function from a
transport failure to an outcome value.  Python string primitives used by
the source (`str.split(sep, 2)`, `str.rstrip`, `str.replace`,
`urllib.parse.urlencode`, `int(...)`) are embedded as explicit Lean
functions on `List Char` / `String`.
-/

/-- A canonical result, modelling `RichResult(version=..., url=...)`. -/
structure RichResult where
  version : String
  url : String
deriving DecidableEq, Repr

/-- Errors the module can produce.  `getVersionError msg` models
`GetVersionError(msg)`; `keyError` models a Python `KeyError` on a missing
dict key; `indexError` models a Python `IndexError` on `data[0]` of an
empty list. -/
inductive GithubError where
  | getVersionError (msg : String)
  | keyError (key : String)
  | indexError
deriving DecidableEq, Repr

/-- Discriminator: is this error a `GetVersionError` (the only error kind
in the specification's taxonomy)? -/
def GithubError.isGetVersionError : GithubError → Bool
  | .getVersionError _ => true
  | _ => false

/-! ## Python string primitives -/

/-- Python truthiness of an optional string: `None` and `""` are falsy
(this is what `if not token:` and `if br:` test in the source). -/
def strTruthy : Option String → Bool
  | none => false
  | some s => !s.isEmpty

/-- Split a character list on every occurrence of `sep`, Python
`str.split(sep)` style: the empty input yields one empty part. -/
def pySplitChar (sep : Char) : List Char → List (List Char)
  | [] => [[]]
  | x :: xs =>
    let r := pySplitChar sep xs
    if x == sep then [] :: r
    else
      match r with
      | [] => [[x]]
      | y :: ys => (x :: y) :: ys

/-- Rejoin parts with `/` between them (used for the remainder beyond a
`maxsplit` limit). -/
def joinWithSlash : List (List Char) → List Char
  | [] => []
  | [l] => l
  | l :: ls => l ++ '/' :: joinWithSlash ls

/-- Python `s.split('/', 2)`: split on `/` into at most 3 parts; any
further separators stay inside the last part. -/
def pySplitMax2 (l : List Char) : List (List Char) :=
  match pySplitChar '/' l with
  | a :: b :: c :: rest => [a, b, joinWithSlash (c :: rest)]
  | parts => parts

/-- Python `s.split('/', 2)[-1]`: the last of the at-most-3 parts. -/
def splitRefLast (s : String) : String :=
  ⟨(pySplitMax2 s.data).getLastD []⟩

/-- Python `s.rstrip(c)` on a character list: remove every trailing
occurrence of `c`. -/
def pyRstrip (c : Char) : List Char → List Char
  | [] => []
  | x :: xs =>
    match pyRstrip c xs with
    | [] => if x == c then [] else [x]
    | ys => x :: ys

/-- Python `s.replace(c, '')` on a character list: delete every
occurrence of `c`. -/
def pyDelete (l : List Char) (c : Char) : List Char :=
  l.filter (fun x => !(x == c))

/-- Python `s.replace(a, b)` on a character list, for single characters:
replace every occurrence of `a` by `b`. -/
def pyMapChar (l : List Char) (a b : Char) : List Char :=
  l.map (fun x => if x == a then b else x)

/-! ## Response parsers (`get_version_real`, lines 170-194) -/

/-- One element of the `git/refs/tags` REST response; the source reads
only its `ref` field. -/
structure TagRef where
  ref : String
deriving DecidableEq, Repr

/-- The max-tag interpreter (source lines 170-179): map every returned
ref object to a `RichResult` whose version is `ref['ref'].split('/', 2)[-1]`
and whose url is `https://github.com/{repo}/releases/tag/{version}`, in
upstream order; raise `GetVersionError('No tag found in upstream
repository.')` when the resulting list is empty. -/
def parse_max_tag (repo : String) (data : List TagRef) :
    Except GithubError (List RichResult) :=
  let tags := data.map (fun r =>
    { version := splitRefLast r.ref
      url := "https://github.com/" ++ repo ++ "/releases/tag/" ++ splitRefLast r.ref })
  if tags.isEmpty then
    .error (.getVersionError "No tag found in upstream repository.")
  else
    .ok tags

/-- The `releases/latest` REST payload; the source reads `tag_name` and
`html_url`.  An `Option` field models presence of the dict key. -/
structure ReleasePayload where
  tag_name : Option String
  html_url : Option String
deriving DecidableEq, Repr

/-- The latest-release interpreter (source lines 181-187): if `tag_name`
is not a key of the payload raise `GetVersionError('No release found in
upstream repository.')`; otherwise version is `data['tag_name']` and url
is `data['html_url']` (a missing `html_url` is a `KeyError`). -/
def parse_latest_release (data : ReleasePayload) :
    Except GithubError RichResult :=
  match data.tag_name with
  | none => .error (.getVersionError "No release found in upstream repository.")
  | some v =>
    match data.html_url with
    | none => .error (.keyError "html_url")
    | some u => .ok { version := v, url := u }

/-- Nested shape `element['commit']['committer']` of the commits REST
response. -/
structure Committer where
  date : String
deriving DecidableEq, Repr

/-- Nested shape `element['commit']` of the commits REST response. -/
structure CommitInfo where
  committer : Committer
deriving DecidableEq, Repr

/-- One element of the commits REST response array. -/
structure CommitElem where
  commit : CommitInfo
  html_url : String
deriving DecidableEq, Repr

/-- The date transform of source line 192:
`date.rstrip('Z').replace('-', '').replace(':', '').replace('T', '.')`. -/
def commitDateTransform (s : String) : String :=
  ⟨pyMapChar (pyDelete (pyDelete (pyRstrip 'Z' s.data) '-') ':') 'T' '.'⟩

/-- The commits interpreter (source lines 189-194): version is the date
transform of `data[0]['commit']['committer']['date']`, url is
`data[0]['html_url']`; on an empty array the subscript `data[0]` raises
`IndexError`. -/
def parse_commits (data : List CommitElem) :
    Except GithubError RichResult :=
  match data with
  | [] => .error .indexError
  | e :: _ =>
    .ok { version := commitDateTransform e.commit.committer.date
          url := e.html_url }

/-- C4: for the max-tag strategy every element maps to a result whose
version is the last of the at-most-3 `/`-separated parts of its ref and
whose url is `https://github.com/{repo}/releases/tag/{version}`; the full
sequence is kept in upstream order; an empty array fails with
`GetVersionError("No tag found in upstream repository.")`. -/
theorem max_tag_parse_spec (repo : String) (data : List TagRef) :
    (data = [] →
      parse_max_tag repo data =
        .error (.getVersionError "No tag found in upstream repository.")) ∧
    (data ≠ [] →
      parse_max_tag repo data =
        .ok (data.map (fun r =>
          { version := splitRefLast r.ref
            url := "https://github.com/" ++ repo ++ "/releases/tag/" ++
              splitRefLast r.ref }))) ∧
    splitRefLast "refs/tags/v1.2.3" = "v1.2.3" := by
  refine ⟨?_, ?_, by decide⟩
  · rintro rfl
    rfl
  · intro h
    unfold parse_max_tag
    rw [if_neg]
    simp [List.isEmpty_iff, h]

/-- Witness for `max_tag_parse_spec` at a one-element array. -/
theorem max_tag_parse_spec_witness :
    ([({ ref := "refs/tags/v1.2.3" } : TagRef)] ≠ []) ∧
    parse_max_tag "owner/repo" [{ ref := "refs/tags/v1.2.3" }] =
      .ok ([({ ref := "refs/tags/v1.2.3" } : TagRef)].map (fun r =>
        { version := splitRefLast r.ref
          url := "https://github.com/" ++ "owner/repo" ++ "/releases/tag/" ++
            splitRefLast r.ref })) :=
  ⟨by decide, (max_tag_parse_spec "owner/repo" _).2.1 (by decide)⟩

/-- C5: the latest-release interpreter fails with
`GetVersionError("No release found in upstream repository.")` exactly when
`tag_name` is absent; when `tag_name` and `html_url` are present the
result is their verbatim values. -/
theorem latest_release_parse_spec (data : ReleasePayload) :
    (parse_latest_release data =
        .error (.getVersionError "No release found in upstream repository.") ↔
      data.tag_name = none) ∧
    (∀ v u, data.tag_name = some v → data.html_url = some u →
      parse_latest_release data = .ok { version := v, url := u }) := by
  constructor
  · constructor
    · intro h
      cases hv : data.tag_name with
      | none => rfl
      | some v =>
        cases hu : data.html_url with
        | none => simp [parse_latest_release, hv, hu] at h
        | some u => simp [parse_latest_release, hv, hu] at h
    · intro h
      simp [parse_latest_release, h]
  · intro v u hv hu
    simp [parse_latest_release, hv, hu]

/-- Witness for `latest_release_parse_spec` at the spec's example payload. -/
theorem latest_release_parse_spec_witness :
    parse_latest_release { tag_name := some "v2.0", html_url := some "https://x" } =
      .ok { version := "v2.0", url := "https://x" } :=
  (latest_release_parse_spec _).2 "v2.0" "https://x" rfl rfl

/-- C6: for the commits strategy the version is the date transform of
element 0's `commit.committer.date` and the url is element 0's
`html_url`; the transform sends `"2023-05-01T12:00:00Z"` to
`"20230501.120000"`. -/
theorem commits_parse_spec :
    (∀ (e : CommitElem) (rest : List CommitElem),
      parse_commits (e :: rest) =
        .ok { version := commitDateTransform e.commit.committer.date
              url := e.html_url }) ∧
    commitDateTransform "2023-05-01T12:00:00Z" = "20230501.120000" := by
  refine ⟨fun e rest => rfl, by decide⟩

/-- C9: on an empty commits array the interpreter reaches the indexing
error branch (`data[0]` on an empty list), which is not a
`GetVersionError` of the specification's error taxonomy. -/
theorem commits_empty_array_index_error :
    parse_commits [] = .error .indexError ∧
    GithubError.isGetVersionError .indexError = false := by
  exact ⟨rfl, rfl⟩

/-! ## Rate-limit classification (`get_version`, `check_ratelimit`,
source lines 23-27 and 196-210) -/

/-- Python `int(s)` on an optionally-signed decimal string: `none` models
the `ValueError`/`TypeError` branch of a failed conversion. -/
def parseDigitsAux (acc : Nat) : List Char → Option Nat
  | [] => some acc
  | c :: cs =>
    if c.isDigit then parseDigitsAux (10 * acc + (c.toNat - '0'.toNat)) cs
    else none

/-- Python `int(s)` for a string: optional sign followed by at least one
decimal digit; anything else fails. -/
def pyInt? (s : String) : Option Int :=
  match s.data with
  | [] => none
  | '-' :: rest =>
    match rest with
    | [] => none
    | _ => (parseDigitsAux 0 rest).map (fun n => -(n : Int))
  | '+' :: rest =>
    match rest with
    | [] => none
    | _ => (parseDigitsAux 0 rest).map Int.ofNat
  | l => (parseDigitsAux 0 l).map Int.ofNat

/-- A header lookup, Python `res.headers.get(k)`: first pair with the
given key, if any. -/
def headerGet (hs : List (String × String)) (k : String) : Option String :=
  (hs.find? (fun p => p.1 == k)).map Prod.snd

/-- The transport response attached to a failure; the classifier only
reads its headers. -/
structure Response where
  headers : List (String × String)
deriving DecidableEq, Repr

/-- A `TemporaryError` raised by the transport: it may or may not carry a
response object (`exc.response`). -/
structure TemporaryError where
  response : Option Response
deriving DecidableEq, Repr

/-- The observable outcome of `check_ratelimit`:
`reraised` models the bare `raise` re-raising the original failure;
`suppressedAndLogged name reset` models falling off the end of the
function after exactly one `logger.error(...)` call carrying the project
name and the reset timestamp; `conversionFailure` models the
`TypeError`/`ValueError` escaping from `int(...)`. -/
inductive RatelimitOutcome where
  | reraised
  | suppressedAndLogged (name : String) (reset : Int)
  | conversionFailure
deriving DecidableEq, Repr

/-- The classifier of source lines 196-210: no response means re-raise;
otherwise `n = int(headers.get('X-RateLimit-Remaining', -1))`; if `n` is
`0`, `reset = int(headers.get('X-RateLimit-Reset'))` (no default: an
absent header is `int(None)`, a `TypeError`) and the failure is logged
and suppressed; any other `n` re-raises. -/
def check_ratelimit (exc : TemporaryError) (name : String) : RatelimitOutcome :=
  match exc.response with
  | none => .reraised
  | some res =>
    let n : Option Int :=
      match headerGet res.headers "X-RateLimit-Remaining" with
      | none => some (-1)
      | some s => pyInt? s
    match n with
    | none => .conversionFailure
    | some n =>
      if n == 0 then
        match headerGet res.headers "X-RateLimit-Reset" with
        | none => .conversionFailure
        | some t =>
          match pyInt? t with
          | none => .conversionFailure
          | some r => .suppressedAndLogged name r
      else .reraised

/-- The observable outcome of the top-level `get_version` (source lines
23-27): a successful inner call returns its value; a `TemporaryError` is
handed exactly once to `check_ratelimit`, whose suppression (the function
returning `None`) becomes `noResult` with the single log entry's fields. -/
inductive TopOutcome (α : Type) where
  | result (v : α)
  | noResult (logName : String) (logReset : Int)
  | reraisedError
  | conversionEscape
deriving DecidableEq, Repr

/-- Discriminator: did the call suppress the failure (yielding no result
after logging)? -/
def TopOutcome.isNoResult {α : Type} : TopOutcome α → Bool
  | .noResult _ _ => true
  | _ => false

/-- The top-level `get_version` (source lines 23-27), given the outcome
of `get_version_real` as either a value or a raised `TemporaryError`. -/
def get_version {α : Type} (r : Except TemporaryError α) (name : String) :
    TopOutcome α :=
  match r with
  | .ok v => .result v
  | .error e =>
    match check_ratelimit e name with
    | .reraised => .reraisedError
    | .suppressedAndLogged n t => .noResult n t
    | .conversionFailure => .conversionEscape

/-- Discriminator: did the classifier suppress the failure after logging? -/
def RatelimitOutcome.isSuppression : RatelimitOutcome → Bool
  | .suppressedAndLogged _ _ => true
  | _ => false

/-- C2 (amended): on a `TemporaryError`, `get_version` hands the failure
once to the classifier; no attached response re-raises unchanged; an
integer `X-RateLimit-Remaining` other than `0` (including the absent
header, sentinel `-1`) re-raises unchanged; `X-RateLimit-Remaining`
equal to `0` together with a present integer `X-RateLimit-Reset` emits
one error log carrying the project name and the reset time and suppresses
the failure; `X-RateLimit-Remaining` equal to `0` with `X-RateLimit-Reset`
absent lets the conversion failure escape instead. -/
theorem ratelimit_classification_amended (α : Type) (e : TemporaryError)
    (name : String) :
    (e.response = none →
      get_version (Except.error e : Except TemporaryError α) name =
        .reraisedError) ∧
    (∀ res, e.response = some res →
      headerGet res.headers "X-RateLimit-Remaining" = none →
      get_version (Except.error e : Except TemporaryError α) name =
        .reraisedError) ∧
    (∀ res s n, e.response = some res →
      headerGet res.headers "X-RateLimit-Remaining" = some s →
      pyInt? s = some n → n ≠ 0 →
      get_version (Except.error e : Except TemporaryError α) name =
        .reraisedError) ∧
    (∀ res s t r, e.response = some res →
      headerGet res.headers "X-RateLimit-Remaining" = some s →
      pyInt? s = some 0 →
      headerGet res.headers "X-RateLimit-Reset" = some t →
      pyInt? t = some r →
      get_version (Except.error e : Except TemporaryError α) name =
        .noResult name r) ∧
    (∀ res s, e.response = some res →
      headerGet res.headers "X-RateLimit-Remaining" = some s →
      pyInt? s = some 0 →
      headerGet res.headers "X-RateLimit-Reset" = none →
      get_version (Except.error e : Except TemporaryError α) name =
        .conversionEscape) := by
  refine ⟨?_, ?_, ?_, ?_, ?_⟩
  · intro h
    simp [get_version, check_ratelimit, h]
  · intro res h1 h2
    simp [get_version, check_ratelimit, h1, h2]
  · intro res s n h1 h2 h3 h4
    simp [get_version, check_ratelimit, h1, h2, h3, h4]
  · intro res s t r h1 h2 h3 h4 h5
    simp [get_version, check_ratelimit, h1, h2, h3, h4, h5]
  · intro res s h1 h2 h3 h4
    simp [get_version, check_ratelimit, h1, h2, h3, h4]

/-- Witness for `ratelimit_classification_amended`: a failure whose
response carries remaining `0` and reset `1700000000` is suppressed with
one log entry naming the project and the reset time. -/
theorem ratelimit_classification_amended_witness :
    get_version
      (Except.error ⟨some ⟨[("X-RateLimit-Remaining", "0"),
        ("X-RateLimit-Reset", "1700000000")]⟩⟩ : Except TemporaryError Unit)
      "proj" = .noResult "proj" 1700000000 := by
  exact (ratelimit_classification_amended Unit
      ⟨some ⟨[("X-RateLimit-Remaining", "0"),
        ("X-RateLimit-Reset", "1700000000")]⟩⟩ "proj").2.2.2.1
    ⟨[("X-RateLimit-Remaining", "0"), ("X-RateLimit-Reset", "1700000000")]⟩
    "0" "1700000000" 1700000000 rfl (by decide) (by decide) (by decide)
    (by decide)

/-- Counterexample to C2 as stated: with `X-RateLimit-Remaining` exactly
`0` but `X-RateLimit-Reset` absent, the failure is neither suppressed nor
re-raised unchanged — the conversion failure escapes. -/
theorem ratelimit_suppression_counterexample :
    get_version
      (Except.error ⟨some ⟨[("X-RateLimit-Remaining", "0")]⟩⟩ :
        Except TemporaryError Unit) "proj" = .conversionEscape ∧
    (get_version
      (Except.error ⟨some ⟨[("X-RateLimit-Remaining", "0")]⟩⟩ :
        Except TemporaryError Unit) "proj").isNoResult = false ∧
    get_version
      (Except.error ⟨some ⟨[("X-RateLimit-Remaining", "0")]⟩⟩ :
        Except TemporaryError Unit) "proj" ≠ .reraisedError := by
  refine ⟨by decide, by decide, by decide⟩

/-- C10: the suppress-and-log outcome of the classifier occurs only when
`X-RateLimit-Reset` is present (and parses); if it is absent while
remaining is `0`, the conversion's error branch is reached instead. -/
theorem ratelimit_reset_precondition (exc : TemporaryError) (name : String) :
    (∀ res, exc.response = some res →
      headerGet res.headers "X-RateLimit-Reset" = none →
      (check_ratelimit exc name).isSuppression = false) ∧
    (∀ res s, exc.response = some res →
      headerGet res.headers "X-RateLimit-Remaining" = some s →
      pyInt? s = some 0 →
      headerGet res.headers "X-RateLimit-Reset" = none →
      check_ratelimit exc name = .conversionFailure) := by
  constructor
  · intro res h1 h2
    unfold check_ratelimit
    rw [h1]
    cases hrem : headerGet res.headers "X-RateLimit-Remaining" with
    | none =>
      simp [hrem, h2, RatelimitOutcome.isSuppression]
    | some s =>
      cases hs : pyInt? s with
      | none => simp [hrem, hs, RatelimitOutcome.isSuppression]
      | some n =>
        by_cases hn : n = 0
        · simp [hrem, hs, hn, h2, RatelimitOutcome.isSuppression]
        · simp [hrem, hs, hn, RatelimitOutcome.isSuppression]
  · intro res s h1 h2 h3 h4
    simp [check_ratelimit, h1, h2, h3, h4]

/-- Witness for `ratelimit_reset_precondition`: remaining `0` with no
reset header yields the conversion failure. -/
theorem ratelimit_reset_precondition_witness :
    check_ratelimit ⟨some ⟨[("X-RateLimit-Remaining", "0")]⟩⟩ "proj" =
      .conversionFailure := by
  exact (ratelimit_reset_precondition
      ⟨some ⟨[("X-RateLimit-Remaining", "0")]⟩⟩ "proj").2
    ⟨[("X-RateLimit-Remaining", "0")]⟩ "0" rfl (by decide) (by decide)
    (by decide)

/-! ## Strategy selection and request construction
(`get_version_real`, lines 118-168) -/

/-- One hex digit, uppercase, as `urllib.parse.quote` produces. -/
def hexDigit (n : Nat) : Char :=
  if n < 10 then Char.ofNat ('0'.toNat + n) else Char.ofNat ('A'.toNat + (n - 10))

/-- Percent-encoding of one byte value. -/
def percentByte (b : Nat) : List Char :=
  ['%', hexDigit (b / 16), hexDigit (b % 16)]

/-- UTF-8 encoding of one character as byte values below 256. -/
def utf8Bytes (c : Char) : List Nat :=
  let n := c.toNat
  if n < 128 then [n]
  else if n < 2048 then [192 + n / 64, 128 + n % 64]
  else if n < 65536 then
    [224 + n / 4096, 128 + (n / 64) % 64, 128 + n % 64]
  else
    [240 + n / 262144, 128 + (n / 4096) % 64, 128 + (n / 64) % 64, 128 + n % 64]

/-- Is the character always left unencoded by `urllib.parse.quote_plus`
(ASCII letters, digits, `_`, `.`, `-`, `~`)? -/
def quoteSafe (c : Char) : Bool :=
  c.isAlphanum && c.toNat < 128 || c == '_' || c == '.' || c == '-' || c == '~'

/-- `urllib.parse.quote_plus` on one character: safe characters stay,
a space becomes `+`, everything else is percent-encoded per UTF-8 byte. -/
def quotePlusChar (c : Char) : List Char :=
  if quoteSafe c then [c]
  else if c == ' ' then ['+']
  else (utf8Bytes c).flatMap percentByte

/-- `urllib.parse.quote_plus` on a string. -/
def quotePlus (s : String) : String :=
  ⟨s.data.flatMap quotePlusChar⟩

/-- `urllib.parse.urlencode` on an ordered list of key/value pairs:
`quote_plus(k)=quote_plus(v)` joined by `&`; the empty list yields the
empty string. -/
def urlencode : List (String × String) → String
  | [] => ""
  | [(k, v)] => quotePlus k ++ "=" ++ quotePlus v
  | (k, v) :: ps => quotePlus k ++ "=" ++ quotePlus v ++ "&" ++ urlencode ps

/-- The template `'https://api.github.com/repos/%s/commits' % repo`
(source line 17). -/
def GITHUB_URL (repo : String) : String :=
  "https://api.github.com/repos/" ++ repo ++ "/commits"

/-- The template `'https://api.github.com/repos/%s/releases/latest' % repo`
(source line 18). -/
def GITHUB_LATEST_RELEASE (repo : String) : String :=
  "https://api.github.com/repos/" ++ repo ++ "/releases/latest"

/-- The template `'https://api.github.com/repos/%s/git/refs/tags' % repo`
(source line 20). -/
def GITHUB_MAX_TAG (repo : String) : String :=
  "https://api.github.com/repos/" ++ repo ++ "/git/refs/tags"

/-- The parameter dict of source lines 156-160: `sha` is added when
`branch` is truthy, then `path` when `path` is truthy (insertion order). -/
def commitsParameters (br path : Option String) : List (String × String) :=
  (if strTruthy br then [("sha", br.getD "")] else []) ++
  (if strTruthy path then [("path", path.getD "")] else [])

/-- The commits URL of source lines 155-161:
`GITHUB_URL % repo` followed by `'?' + urlencode(parameters)` — the `?`
is appended unconditionally, even for an empty parameter dict. -/
def buildCommitsUrl (repo : String) (br path : Option String) : String :=
  GITHUB_URL repo ++ "?" ++ urlencode (commitsParameters br path)

/-- The configuration entry as read by `get_version_real`: each field is
the value of the corresponding `conf.get(...)` lookup (absent keys are
`none`; the boolean flags default to `False`). -/
structure Entry where
  github : String
  token : Option String
  use_latest_tag : Bool
  query : Option String
  use_latest_release : Bool
  include_prereleases : Bool
  branch : Option String
  path : Option String
  use_max_tag : Bool
deriving DecidableEq, Repr

/-- Token resolution of source lines 126-129: the config value if the
key is present, else the key manager's `github` key. -/
def resolveToken (confToken kmKey : Option String) : Option String :=
  match confToken with
  | some t => some t
  | none => kmKey

/-- What `get_version_real` decides to do before any network traffic:
either a GraphQL request keyed by its cache tuple, or a REST `GET` with
its URL and headers. -/
inductive Plan where
  | graphqlLatestTag (repo query token : String)
  | graphqlLatestReleasePre (repo token : String)
  | restGet (url : String) (headers : List (String × String))
deriving DecidableEq, Repr

/-- The REST headers of source lines 162-166: the `Accept` preview header
always, plus `Authorization: token ...` when a token is truthy. -/
def restHeaders (token : Option String) : List (String × String) :=
  [("Accept", "application/vnd.github.quicksilver-preview+json")] ++
  (if strTruthy token then [("Authorization", "token " ++ token.getD "")] else [])

/-- The pure pre-network phase of `get_version_real` (source lines
118-168): resolve the token, then first-match-wins over
`use_latest_tag`; `use_latest_release ∧ include_prereleases`; and the
REST strategies (`use_latest_release`, then `use_max_tag`, then the
commits default).  The two GraphQL strategies raise
`GetVersionError('token not given but it is required')` when the
resolved token is falsy, before any request is issued. -/
def get_version_plan (conf : Entry) (kmKey : Option String) :
    Except GithubError Plan :=
  let token := resolveToken conf.token kmKey
  if conf.use_latest_tag then
    if !strTruthy token then
      .error (.getVersionError "token not given but it is required")
    else
      .ok (.graphqlLatestTag conf.github (conf.query.getD "") (token.getD ""))
  else if conf.use_latest_release && conf.include_prereleases then
    if !strTruthy token then
      .error (.getVersionError "token not given but it is required")
    else
      .ok (.graphqlLatestReleasePre conf.github (token.getD ""))
  else
    let url :=
      if conf.use_latest_release then GITHUB_LATEST_RELEASE conf.github
      else if conf.use_max_tag then GITHUB_MAX_TAG conf.github
      else buildCommitsUrl conf.github conf.branch conf.path
    .ok (.restGet url (restHeaders token))

/-- C1: with `use_latest_tag` true the plan is always the latest-tag
GraphQL path, whatever the other flags say; with it false, the
latest-release-with-prereleases GraphQL path fires exactly when both its
flags are true; otherwise one of the REST strategies is chosen — first
match wins in that fixed order. -/
theorem use_latest_tag_precedence (conf : Entry) (kmKey : Option String)
    (htok : strTruthy (resolveToken conf.token kmKey) = true) :
    (conf.use_latest_tag = true →
      get_version_plan conf kmKey =
        .ok (.graphqlLatestTag conf.github (conf.query.getD "")
          ((resolveToken conf.token kmKey).getD ""))) ∧
    (conf.use_latest_tag = false → conf.use_latest_release = true →
      conf.include_prereleases = true →
      get_version_plan conf kmKey =
        .ok (.graphqlLatestReleasePre conf.github
          ((resolveToken conf.token kmKey).getD ""))) ∧
    (conf.use_latest_tag = false →
      (conf.use_latest_release && conf.include_prereleases) = false →
      ∃ url hdrs, get_version_plan conf kmKey = .ok (.restGet url hdrs)) := by
  refine ⟨?_, ?_, ?_⟩
  · intro h
    simp [get_version_plan, h, htok]
  · intro h1 h2 h3
    simp [get_version_plan, h1, h2, h3, htok]
  · intro h1 h2
    refine ⟨if conf.use_latest_release then GITHUB_LATEST_RELEASE conf.github
        else if conf.use_max_tag then GITHUB_MAX_TAG conf.github
        else buildCommitsUrl conf.github conf.branch conf.path,
      restHeaders (resolveToken conf.token kmKey), ?_⟩
    simp [get_version_plan, h1, h2, htok]

/-- Witness for `use_latest_tag_precedence`: a configuration setting all
of `use_latest_tag`, `use_latest_release`, `include_prereleases` and
`use_max_tag` resolves via the latest-tag GraphQL path. -/
theorem use_latest_tag_precedence_witness :
    ((⟨"owner/repo", some "tok", true, none, true, true, none, none, true⟩ :
        Entry).use_latest_tag = true) ∧
    get_version_plan
      ⟨"owner/repo", some "tok", true, none, true, true, none, none, true⟩
      none = .ok (.graphqlLatestTag "owner/repo" "" "tok") := by
  exact ⟨rfl, (use_latest_tag_precedence
    ⟨"owner/repo", some "tok", true, none, true, true, none, none, true⟩
    none (by decide)).1 rfl⟩

/-- C3: when the strategy is latest-tag (or latest-release together with
prereleases) and the token resolved from the config and then the key
manager is empty or absent, resolution fails with
`GetVersionError("token not given but it is required")` in the
pre-network phase. -/
theorem token_required_before_network (conf : Entry) (kmKey : Option String)
    (hno : strTruthy (resolveToken conf.token kmKey) = false)
    (hsel : conf.use_latest_tag = true ∨
      (conf.use_latest_release = true ∧ conf.include_prereleases = true)) :
    get_version_plan conf kmKey =
      .error (.getVersionError "token not given but it is required") := by
  cases hlt : conf.use_latest_tag with
  | true => simp [get_version_plan, hlt, hno]
  | false =>
    rcases hsel with h | ⟨h1, h2⟩
    · rw [h] at hlt
      cases hlt
    · simp [get_version_plan, hlt, h1, h2, hno]

/-- Witness for `token_required_before_network`: `use_latest_tag` with no
token anywhere fails with the configuration error. -/
theorem token_required_before_network_witness :
    strTruthy (resolveToken none none) = false ∧
    get_version_plan
      ⟨"owner/repo", none, true, none, false, false, none, none, false⟩
      none = .error (.getVersionError "token not given but it is required") := by
  exact ⟨by decide, token_required_before_network
    ⟨"owner/repo", none, true, none, false, false, none, none, false⟩
    none (by decide) (Or.inl rfl)⟩

/-- Counterexample to C8 as stated: with neither `branch` nor `path`
configured the commits URL carries a trailing `?` — it is not the bare
path with no query-string suffix. -/
theorem commits_url_trailing_question_mark :
    buildCommitsUrl "owner/repo" none none =
      "https://api.github.com/repos/owner/repo/commits?" ∧
    buildCommitsUrl "owner/repo" none none ≠
      "https://api.github.com/repos/owner/repo/commits" := by
  refine ⟨by decide, by decide⟩

/-- C8 (amended): the commits request URL is the bit-exact path
`/repos/{repo}/commits` followed by an unconditionally appended `?`; the
query string after it holds `sha` exactly when `branch` is truthy and
`path` exactly when `path` is truthy (in that order), and is empty when
neither is configured; the default strategy's plan uses exactly this URL. -/
theorem commits_url_construction_amended (repo : String)
    (br path : Option String) :
    (strTruthy br = false → strTruthy path = false →
      buildCommitsUrl repo br path = GITHUB_URL repo ++ "?") ∧
    (∀ b, br = some b → strTruthy br = true → strTruthy path = false →
      buildCommitsUrl repo br path =
        GITHUB_URL repo ++ "?" ++ ("sha=" ++ quotePlus b)) ∧
    (∀ p, path = some p → strTruthy br = false → strTruthy path = true →
      buildCommitsUrl repo br path =
        GITHUB_URL repo ++ "?" ++ ("path=" ++ quotePlus p)) ∧
    (∀ b p, br = some b → path = some p → strTruthy br = true →
      strTruthy path = true →
      buildCommitsUrl repo br path =
        GITHUB_URL repo ++ "?" ++
          ("sha=" ++ quotePlus b ++ "&" ++ ("path=" ++ quotePlus p))) ∧
    (∀ (conf : Entry) (kmKey : Option String),
      conf.use_latest_tag = false → conf.use_latest_release = false →
      conf.use_max_tag = false →
      get_version_plan conf kmKey =
        .ok (.restGet (buildCommitsUrl conf.github conf.branch conf.path)
          (restHeaders (resolveToken conf.token kmKey)))) := by
  refine ⟨?_, ?_, ?_, ?_, ?_⟩
  · intro h1 h2
    simp [buildCommitsUrl, commitsParameters, urlencode, h1, h2]
  · rintro b rfl h1 h2
    simp only [buildCommitsUrl, commitsParameters, urlencode, h1, h2,
      if_true, if_false, List.append_nil, Bool.true_eq_false, Option.getD_some]
    rw [show quotePlus "sha" = "sha" from by decide]
    rw [show ("sha" : String) ++ "=" = "sha=" from by decide]
  · rintro p h0 h1 h2
    rw [h0] at h2 ⊢
    simp only [buildCommitsUrl, commitsParameters, urlencode, h1, h2,
      if_true, if_false, List.nil_append, Option.getD_some]
    rw [show quotePlus "path" = "path" from by decide]
    rw [show ("path" : String) ++ "=" = "path=" from by decide]
  · rintro b p rfl rfl h1 h2
    simp only [buildCommitsUrl, commitsParameters, urlencode, h1, h2,
      if_true, List.cons_append, List.nil_append, Option.getD_some]
    rw [show quotePlus "sha" = "sha" from by decide]
    rw [show quotePlus "path" = "path" from by decide]
    rw [show ("sha" : String) ++ "=" = "sha=" from by decide]
    rw [show ("path" : String) ++ "=" = "path=" from by decide]
  · intro conf kmKey h1 h2 h3
    simp [get_version_plan, h1, h2, h3]

/-- Witness for `commits_url_construction_amended`: with branch `dev` and
no path the URL is the commits path, `?`, then `sha=dev`. -/
theorem commits_url_construction_amended_witness :
    buildCommitsUrl "owner/repo" (some "dev") none =
      GITHUB_URL "owner/repo" ++ "?" ++ ("sha=" ++ quotePlus "dev") := by
  exact (commits_url_construction_amended "owner/repo" (some "dev") none).2.1
    "dev" rfl (by decide) (by decide)

/-! ## Idempotence of the commits date transform (C7) -/

/-- Characters with differing `isDigit` status compare `beq`-false. -/
theorem beq_false_of_isDigit {c d : Char} (hc : c.isDigit = true)
    (hd : d.isDigit = false) : (c == d) = false := by
  cases hb : c == d with
  | false => rfl
  | true =>
    have hcd : c = d := by simpa using hb
    subst hcd
    rw [hc] at hd
    cases hd

/-- Characters with differing `isDigit` status are distinct. -/
theorem ne_of_isDigit {c d : Char} (hc : c.isDigit = true)
    (hd : d.isDigit = false) : ¬(c = d) := by
  intro h
  subst h
  rw [hc] at hd
  cases hd

/-- A digit is none of the structural characters the transform touches. -/
theorem digitFacts {c : Char} (hc : c.isDigit = true) :
    (c == 'Z') = false ∧ (c == '-') = false ∧ (c == ':') = false ∧
    (c == 'T') = false ∧ ¬(c = 'Z') ∧ ¬(c = '-') ∧ ¬(c = ':') ∧ ¬(c = 'T') :=
  ⟨beq_false_of_isDigit hc (by decide), beq_false_of_isDigit hc (by decide),
   beq_false_of_isDigit hc (by decide), beq_false_of_isDigit hc (by decide),
   ne_of_isDigit hc (by decide), ne_of_isDigit hc (by decide),
   ne_of_isDigit hc (by decide), ne_of_isDigit hc (by decide)⟩

/-- The transform evaluated on a well-formed timestamp's character list:
the trailing `Z` is stripped, the `-` and `:` are deleted and the `T`
becomes `.`. -/
theorem transformChars_wf (y1 y2 y3 y4 m1 m2 d1 d2 h1 h2 n1 n2 s1 s2 : Char)
    (hy1 : y1.isDigit = true) (hy2 : y2.isDigit = true)
    (hy3 : y3.isDigit = true) (hy4 : y4.isDigit = true)
    (hm1 : m1.isDigit = true) (hm2 : m2.isDigit = true)
    (hd1 : d1.isDigit = true) (hd2 : d2.isDigit = true)
    (hh1 : h1.isDigit = true) (hh2 : h2.isDigit = true)
    (hn1 : n1.isDigit = true) (hn2 : n2.isDigit = true)
    (hs1 : s1.isDigit = true) (hs2 : s2.isDigit = true) :
    pyMapChar (pyDelete (pyDelete (pyRstrip 'Z'
      [y1, y2, y3, y4, '-', m1, m2, '-', d1, d2, 'T', h1, h2, ':', n1, n2, ':',
        s1, s2, 'Z']) '-') ':') 'T' '.' =
    [y1, y2, y3, y4, m1, m2, d1, d2, '.', h1, h2, n1, n2, s1, s2] := by
  simp [pyRstrip, pyDelete, pyMapChar, digitFacts hy1, digitFacts hy2,
    digitFacts hy3, digitFacts hy4, digitFacts hm1, digitFacts hm2,
    digitFacts hd1, digitFacts hd2, digitFacts hh1, digitFacts hh2,
    digitFacts hn1, digitFacts hn2, digitFacts hs1, digitFacts hs2]

/-- The transform fixes its own output on a well-formed timestamp: the
result consists of digits and one `.`, on which stripping, deleting and
mapping do nothing. -/
theorem transformChars_wf_fixed
    (y1 y2 y3 y4 m1 m2 d1 d2 h1 h2 n1 n2 s1 s2 : Char)
    (hy1 : y1.isDigit = true) (hy2 : y2.isDigit = true)
    (hy3 : y3.isDigit = true) (hy4 : y4.isDigit = true)
    (hm1 : m1.isDigit = true) (hm2 : m2.isDigit = true)
    (hd1 : d1.isDigit = true) (hd2 : d2.isDigit = true)
    (hh1 : h1.isDigit = true) (hh2 : h2.isDigit = true)
    (hn1 : n1.isDigit = true) (hn2 : n2.isDigit = true)
    (hs1 : s1.isDigit = true) (hs2 : s2.isDigit = true) :
    pyMapChar (pyDelete (pyDelete (pyRstrip 'Z'
      [y1, y2, y3, y4, m1, m2, d1, d2, '.', h1, h2, n1, n2, s1, s2]) '-') ':')
      'T' '.' =
    [y1, y2, y3, y4, m1, m2, d1, d2, '.', h1, h2, n1, n2, s1, s2] := by
  simp [pyRstrip, pyDelete, pyMapChar, digitFacts hy1, digitFacts hy2,
    digitFacts hy3, digitFacts hy4, digitFacts hm1, digitFacts hm2,
    digitFacts hd1, digitFacts hd2, digitFacts hh1, digitFacts hh2,
    digitFacts hn1, digitFacts hn2, digitFacts hs1, digitFacts hs2]

/-- A well-formed ISO-8601 timestamp as consumed by the commits strategy:
`YYYY-MM-DDTHH:MM:SSZ` with digits in every data position. -/
def wellFormedISO (s : String) : Prop :=
  ∃ y1 y2 y3 y4 m1 m2 d1 d2 h1 h2 n1 n2 s1 s2 : Char,
    y1.isDigit = true ∧ y2.isDigit = true ∧ y3.isDigit = true ∧
    y4.isDigit = true ∧ m1.isDigit = true ∧ m2.isDigit = true ∧
    d1.isDigit = true ∧ d2.isDigit = true ∧ h1.isDigit = true ∧
    h2.isDigit = true ∧ n1.isDigit = true ∧ n2.isDigit = true ∧
    s1.isDigit = true ∧ s2.isDigit = true ∧
    s.data = [y1, y2, y3, y4, '-', m1, m2, '-', d1, d2, 'T', h1, h2, ':',
      n1, n2, ':', s1, s2, 'Z']

/-- C7: on every well-formed ISO-8601 timestamp the commits date
transform is idempotent — applying it to its own output returns that
output unchanged (and it is total, being a function). -/
theorem commit_date_transform_idempotent (s : String) (h : wellFormedISO s) :
    commitDateTransform (commitDateTransform s) = commitDateTransform s := by
  obtain ⟨y1, y2, y3, y4, m1, m2, d1, d2, h1, h2, n1, n2, s1, s2,
    hy1, hy2, hy3, hy4, hm1, hm2, hd1, hd2, hh1, hh2, hn1, hn2, hs1, hs2,
    hdata⟩ := h
  have e1 : commitDateTransform s =
      String.mk [y1, y2, y3, y4, m1, m2, d1, d2, '.', h1, h2, n1, n2, s1, s2] := by
    unfold commitDateTransform
    rw [hdata]
    exact congrArg String.mk (transformChars_wf y1 y2 y3 y4 m1 m2 d1 d2 h1 h2
      n1 n2 s1 s2 hy1 hy2 hy3 hy4 hm1 hm2 hd1 hd2 hh1 hh2 hn1 hn2 hs1 hs2)
  rw [e1]
  show String.mk (pyMapChar (pyDelete (pyDelete (pyRstrip 'Z'
      [y1, y2, y3, y4, m1, m2, d1, d2, '.', h1, h2, n1, n2, s1, s2]) '-') ':')
      'T' '.') =
    String.mk [y1, y2, y3, y4, m1, m2, d1, d2, '.', h1, h2, n1, n2, s1, s2]
  exact congrArg String.mk (transformChars_wf_fixed y1 y2 y3 y4 m1 m2 d1 d2
    h1 h2 n1 n2 s1 s2 hy1 hy2 hy3 hy4 hm1 hm2 hd1 hd2 hh1 hh2 hn1 hn2 hs1 hs2)

/-- Witness for `commit_date_transform_idempotent` at the spec's example
timestamp. -/
theorem commit_date_transform_idempotent_witness :
    wellFormedISO "2023-05-01T12:00:00Z" ∧
    commitDateTransform (commitDateTransform "2023-05-01T12:00:00Z") =
      commitDateTransform "2023-05-01T12:00:00Z" := by
  have hwf : wellFormedISO "2023-05-01T12:00:00Z" :=
    ⟨'2', '0', '2', '3', '0', '5', '0', '1', '1', '2', '0', '0', '0', '0',
      rfl, rfl, rfl, rfl, rfl, rfl, rfl, rfl, rfl, rfl, rfl, rfl, rfl, rfl,
      by decide⟩
  exact ⟨hwf, commit_date_transform_idempotent "2023-05-01T12:00:00Z" hwf⟩
